import Mathlib

/-!
Verification of the pxlsspace client's stateful synchronization layer
(`src/client.rs`, `src/messages.rs`, `src/event_handler.rs`).

The embedding below translates the Rust source shallowly:

* `tokio::sync::Mutex<Option<Arc<RwLock<T>>>>` cache slots become
  `Option Nat` slot fields holding ids into per-type heaps
  (`Nat → List Nat`, …); an `Arc` handle is a heap id, so handing out a
  handle and later emptying the slot leaves the heap cell intact, exactly
  as reference counting does.
* `SystemTime` values are seconds as `Nat`; the `SystemTime`/`Duration`
  arithmetic of the source panics on underflow via `unwrap`, which the
  embedding models by explicit comparisons guarding `Nat` subtraction.
* Network I/O is an oracle argument (`Except RequestError _`) and every
  operation additionally returns the list of fetches it performed, so
  frame conditions about "no network call" are statements about that list.
* Rust panics (`expect`, `unwrap`, slice-index panics) are explicit
  `panicked` constructors carrying the message and the state mutated so
  far; `Result`-returning paths use `Except`.
* Lock acquisition order is modelled separately as the literal sequence of
  cache-slot mutex acquire/release events each function performs, read off
  the source line by line.
-/

/-- Cache slot identifiers: the six fields of `ClientCache` (client.rs 20-29). -/
inductive Slot
  | infoS
  | colorsS
  | initialS
  | maskS
  | timestampsS
  | createdAtS
deriving DecidableEq, Repr

/-- An acquire or release of one cache-slot mutex. -/
inductive LockEvent
  | acq (s : Slot)
  | rel (s : Slot)
deriving DecidableEq, Repr

/-- Slot-mutex events of `Client::info` (client.rs 394-420): the guard from
`self.cache.info.lock()` lives until the function returns. -/
def infoLocks : List LockEvent := [.acq .infoS, .rel .infoS]

/-- Slot-mutex events of `Client::timestamps` (client.rs 469-519): the
timestamp-slot guard (line 475) is held across the call to `self.info()`
(line 477, which locks and releases the info slot) and across the
`created_at` lock (line 481, released at the end of the `if` block). -/
def timestampsLocks : List LockEvent :=
  [.acq .timestampsS, .acq .infoS, .rel .infoS,
   .acq .createdAtS, .rel .createdAtS, .rel .timestampsS]

/-- Slot-mutex events of `Client::update_buffers` (client.rs 521-551):
`self.info()` locks and releases the info slot (line 522), then colors
(line 525), timestamps (line 528), created_at (line 529) are acquired;
colors is dropped at line 537, timestamps at line 550, created_at at the
end of the function. -/
def update_buffersLocks : List LockEvent :=
  [.acq .infoS, .rel .infoS, .acq .colorsS, .acq .timestampsS,
   .acq .createdAtS, .rel .colorsS, .rel .timestampsS, .rel .createdAtS]

/-- Slot-mutex events of `Client::clear_cache` (client.rs 553-566): all six
slot mutexes acquired in field order, released in reverse at scope end. -/
def clear_cacheLocks : List LockEvent :=
  [.acq .infoS, .acq .colorsS, .acq .initialS, .acq .maskS,
   .acq .timestampsS, .acq .createdAtS,
   .rel .createdAtS, .rel .timestampsS, .rel .maskS, .rel .initialS,
   .rel .colorsS, .rel .infoS]

/-- All pairs (a, b) such that the event sequence acquires lock b while
still holding lock a.  The first argument is the set of currently held
locks. -/
def heldPairs : List Slot → List LockEvent → List (Slot × Slot)
  | _, [] => []
  | held, LockEvent.acq s :: rest =>
      held.map (fun h => (h, s)) ++ heldPairs (s :: held) rest
  | held, LockEvent.rel s :: rest => heldPairs (held.erase s) rest

/-- Rank of a slot in the order the specification fixes: metadata, then
color buffer, then timestamp buffer, then canvas-epoch.  The initial-color
and mask slots are not ranked by that sentence. -/
def specRank : Slot → Option Nat
  | .infoS => some 0
  | .colorsS => some 1
  | .timestampsS => some 2
  | .createdAtS => some 3
  | .initialS => none
  | .maskS => none

/-- A held/acquired pair respects the specification's order when both slots
are ranked and the held slot ranks strictly below the acquired one. -/
def pairRespects : Slot × Slot → Bool
  | (a, b) =>
    match specRank a, specRank b with
    | some x, some y => decide (x < y)
    | _, _ => true

/-- An event sequence respects the fixed order when every lock it acquires
while holding another ranked lock ranks above the held one. -/
def respectsSpecOrder (evs : List LockEvent) : Prop :=
  ∀ p ∈ heldPairs [] evs, pairRespects p = true

instance (evs : List LockEvent) : Decidable (respectsSpecOrder evs) :=
  List.decidableBAll _ _

/-- C1: the claim asserts every multi-lock path acquires cache-slot locks
in the order metadata, colors, timestamps, canvas-epoch.  `update_buffers`
and `clear_cache` do, but `Client::timestamps` acquires the timestamp-slot
mutex and then, while holding it, the metadata-slot mutex (inside
`self.info()`), the inverse of `clear_cache`'s metadata-before-timestamps
order — the two paths form a cyclic wait, so the claimed deadlock freedom
fails. -/
theorem C1_lock_order_violated :
    respectsSpecOrder update_buffersLocks ∧
    respectsSpecOrder clear_cacheLocks ∧
    ¬ respectsSpecOrder timestampsLocks ∧
    (Slot.timestampsS, Slot.infoS) ∈ heldPairs [] timestampsLocks ∧
    (Slot.infoS, Slot.timestampsS) ∈ heldPairs [] clear_cacheLocks := by
  decide

/-!
Wire data model, translated from `src/messages.rs`.  Integer types map as
`usize`/`u64`/`u32`/`u8` → `Nat`, `isize`/`i32` → `Int`; an `f32` payload
is carried uninterpreted as its 32-bit pattern.
-/

/-- Uninterpreted 32-bit float payload (carried, never computed with). -/
structure F32 where
  bits : Nat
deriving DecidableEq, Repr

/-- messages.rs 3-9. -/
structure Pixel where
  x : Nat
  y : Nat
  color : Nat
deriving DecidableEq, Repr

/-- messages.rs 11-20. -/
structure Notification where
  id : Nat
  time : Nat
  expiry : Option Nat
  who : String
  title : String
  content : String
deriving DecidableEq, Repr

/-- messages.rs 22-27. -/
structure Purge where
  initiator : String
  reason : String
deriving DecidableEq, Repr

/-- messages.rs 29-35. -/
structure Badge where
  display_name : String
  tooltip : String
  css_icon : Option String
deriving DecidableEq, Repr

/-- messages.rs 37-44. -/
structure StrippedFaction where
  id : Nat
  name : String
  tag : Option String
  color : Nat
deriving DecidableEq, Repr

/-- messages.rs 46-59. -/
structure ChatMessage where
  id : Nat
  author : String
  date : Nat
  message_raw : String
  purge : Option Purge
  badges : List Badge
  author_name_color : Int
  author_was_shadow_banned : Option Bool
  stripped_faction : Option StrippedFaction
deriving DecidableEq, Repr

/-- messages.rs 102-115. -/
structure UserFaction where
  id : Nat
  color : Nat
  name : String
  tag : String
  owner : String
  canvas_code : String
  creation_ms : Nat
  member_count : Nat
  user_joined : Bool
deriving DecidableEq, Repr

/-- messages.rs 61-65. -/
structure UserUpdate where
  name_color : Option Int
  displayed_faction : Option (Option UserFaction)
deriving DecidableEq, Repr

/-- messages.rs 117-140. -/
structure User where
  id : Nat
  stacked : Nat
  chat_name_color : Int
  signup_time : Nat
  username : String
  cooldown_expiry : Nat
  login_with_IP : Bool
  signup_IP : String
  pixel_count : Nat
  pixel_count_all_time : Nat
  ban_expiry : Option Nat
  is_perma_chatbanned : Bool
  shadow_banned : Bool
  chatban_expiry : Nat
  is_rename_requested : Bool
  discord_name : String
  chatban_reason : String
  displayed_faction : Option Nat
  faction_blocked : Option Bool
deriving DecidableEq, Repr

/-- messages.rs 142-157. -/
structure ChatBan where
  id : Nat
  target : Nat
  initiator : Nat
  when : Nat
  type : String
  expiry : Nat
  reason : String
  purged : Bool
  target_name : String
  initiator_name : String
deriving DecidableEq, Repr

/-- messages.rs 159-164. -/
inductive AcknowledgeType
  | place
  | undo
deriving DecidableEq, Repr

/-- messages.rs 166-172. -/
structure PlacementOverrides where
  ignore_cooldown : Option Bool
  can_place_any_color : Option Bool
  ignore_placemap : Option Bool
deriving DecidableEq, Repr

/-- messages.rs 174-184 (recursive through `inherits`). -/
inductive Role
  | mk (id : Nat) (name : String) (guest : Bool) (default_role : Bool)
      (inherits : List Role) (badges : List Badge) (permissions : List String)

/-- messages.rs 186-241: the tagged union of stream messages. -/
inductive Message
  | pixel (pixels : List Pixel)
  | users (count : Nat)
  | alert (sender : String) (message : String)
  | notification (n : Notification)
  | chatMessage (message : ChatMessage)
  | chatUserUpdate (who : String) (updates : UserUpdate)
  | factionUpdate (faction : UserFaction)
  | factionClear (fid : Nat)
  | chatHistory (messages : List ChatMessage)
  | messageCooldown (diff : Nat) (message : String)
  | chatLookup (target : User) (history : List ChatMessage) (chatbans : List ChatBan)
  | chatBan (permanent : Bool) (reason : String) (expiry : Nat)
  | chatBanState (permanent : Bool) (reason : String) (expiry : Nat)
  | chatPurge (target : String) (initiator : String) (amount : Nat)
      (reason : String) (announce : Bool)
  | chatPurgeSpecific (target : String) (initiator : String) (ids : List Nat)
      (reason : String) (announce : Bool)
  | acknowledge (ack_for : AcknowledgeType) (x : Nat) (y : Nat)
  | adminPlacementOverrides (placement_overrides : PlacementOverrides)
  | captchaRequired
  | captchaStatus (success : Bool)
  | canUndo (time : Nat)
  | cooldown (wait : F32)
  | receivedReport (report_id : Nat) (report_type : String)
  | pixels (count : Nat) (cause : String)
  | userinfo (username : String) (roles : List Role) (pixel_count : Nat)
      (pixel_count_all_time : Nat) (banned : Bool) (ban_expiry : Option Nat)
      (ban_reason : Option String) (method : String)
      (placement_overrides : PlacementOverrides) (chat_banned : Bool)
      (chatban_reason : Option String) (chatban_is_perma : Option Bool)
      (chatban_expiry : Option Nat) (rename_requested : Bool)
      (discord_name : Option String) (chat_name_color : Int)
  | pixelCounts (pixel_count : Nat) (pixel_count_all_time : Nat)
  | rename (requested : Bool)
  | renameSuccess (new_name : String)

/-- One invocation of an `EventHandler` method (event_handler.rs 10-217),
with its payload. -/
inductive HandlerCall
  | ready
  | disconnect
  | acknowledge (ack_for : AcknowledgeType) (x : Nat) (y : Nat)
  | overrides (o : PlacementOverrides)
  | alert (sender : String) (message : String)
  | can_undo (time : Nat)
  | captcha_status (success : Bool)
  | captcha_required
  | chatban (permanent : Bool) (reason : String) (expiry : Nat)
  | chatban_state (permanent : Bool) (reason : String) (expiry : Nat)
  | chat_history (messages : List ChatMessage)
  | chat_lookup (target : User) (history : List ChatMessage) (chatbans : List ChatBan)
  | chat_message (message : ChatMessage)
  | chat_purge (target : String) (initiator : String) (amount : Nat)
      (reason : String) (announce : Bool)
  | chat_purge_specific (target : String) (initiator : String) (ids : List Nat)
      (reason : String) (announce : Bool)
  | chat_user_update (who : String) (updates : UserUpdate)
  | cooldown (wait : F32)
  | faction_clear (faction_id : Nat)
  | faction_update (faction : UserFaction)
  | message_cooldown (diff : Nat) (message : String)
  | notification (n : Notification)
  | board_update (pixels : List Pixel)
  | pixel_counts (count : Nat) (all_time : Nat)
  | pixels_available (count : Nat) (cause : String)
  | received_report (report_id : Nat) (report_type : String)
  | rename (requested : Bool)
  | rename_success (new_name : String)
  | user_info (username : String) (roles : List Role) (pixel_count : Nat)
      (pixel_count_all_time : Nat) (banned : Bool) (ban_expiry : Option Nat)
      (ban_reason : Option String) (method : String)
      (placement_overrides : PlacementOverrides) (chat_banned : Bool)
      (chatban_reason : Option String) (chatban_is_perma : Option Bool)
      (chatban_expiry : Option Nat) (rename_requested : Bool)
      (discord_name : Option String) (chat_name_color : Int)
  | user_count (count : Nat)
  | unknown (packet : String)

/-!
Client state and cache operations, translated from `src/client.rs`.
-/

/-- client.rs 222-245: canvas metadata.  Fields not read by any modelled
operation (palette colors are kept as raw byte triples, cooldown parameters
as their numeric payloads) are carried to keep the record shape. -/
structure Color where
  name : String
  value : Nat × Nat × Nat
deriving DecidableEq, Repr

/-- client.rs 187-206. -/
inductive CooldownType
  | activity
  | static_
deriving DecidableEq, Repr

/-- client.rs 194-206. -/
structure CooldownInfo where
  type : CooldownType
  static_cooldown_seconds : Nat
  activity_cooldown_steepness : F32
deriving DecidableEq, Repr

/-- client.rs 208-214. -/
structure AuthService where
  id : String
  name : String
  registration_enabled : Bool
deriving DecidableEq, Repr

/-- client.rs 216-220. -/
structure Emoji where
  emoji : String
  name : String
deriving DecidableEq, Repr

/-- client.rs 222-245: the `/info` document. -/
structure BoardInfo where
  canvas_code : String
  width : Nat
  height : Nat
  palette : List Color
  cooldown_info : CooldownInfo
  captcha_key : String
  heatmap_cooldown : Nat
  max_stacked : Nat
  auth_services : List (String × AuthService)
  registration_enabled : Bool
  chat_enabled : Bool
  chat_respects_canvas_ban : Bool
  chat_character_limit : Nat
  chat_banner_text : List String
  snip_mode : Bool
  custom_emoji : List Emoji
  cors_base : String
  cors_param : Option String
  chat_ratelimit_message : String
deriving DecidableEq, Repr

/-- client.rs 80-86: errors of a single HTTP fetch (payloads abstracted to
their rendered text). -/
inductive RequestError
  | Http (e : String)
  | Buffer (e : String)
  | ParseUTF8 (e : String)
  | ParseJSON (e : String)
deriving DecidableEq, Repr

/-- client.rs 73-78. -/
inductive ConnectError
  | InvalidSiteScheme (s : String)
  | WebsocketConnectFailed (e : String)
  | InfoFailed (e : RequestError)
deriving DecidableEq, Repr

/-- client.rs 348-366: which HTTP endpoint a buffer fetch hits. -/
inductive FetchKind
  | infoF
  | boarddata
  | initialboarddata
  | placemap
  | heatmap
  | virginmap
deriving DecidableEq, Repr

/-- client.rs 20-29: the six `Cache<T> = Mutex<Option<Arc<RwLock<T>>>>`
slots.  A populated slot holds the id of its `Arc`-shared cell. -/
structure ClientCache where
  info : Option Nat
  colors : Option Nat
  initial : Option Nat
  mask : Option Nat
  timestamps : Option Nat
  createdAt : Option Nat
deriving DecidableEq, Repr

/-- The all-empty cache (`ClientCache::default()`). -/
def ClientCache.empty : ClientCache := ⟨none, none, none, none, none, none⟩

/-- Client state: the cache plus the heaps backing `Arc` cells of each
type, a fresh-id counter, and the `connected` flag (client.rs 333-340).
`byteHeap` backs the three `Vec<u8>` buffers, `tsHeap` the `Vec<u32>`
timestamp buffers, `timeHeap` the `SystemTime` canvas-epoch cells. -/
structure ClientState where
  cache : ClientCache
  infoHeap : Nat → BoardInfo
  byteHeap : Nat → List Nat
  tsHeap : Nat → List Nat
  timeHeap : Nat → Nat
  nextId : Nat
  connected : Bool

/-- client.rs 553-566: `Client::clear_cache` takes all six slot locks and
sets every slot to `None`.  Only the slots change: the heap cells backing
handles already handed out are untouched. -/
def clear_cache (s : ClientState) : ClientState :=
  { s with cache := ClientCache.empty }

/-- client.rs 394-420: `Client::info`.  Lock the info slot; if empty,
GET `/info` (outcome supplied by the oracle `net`), store the parsed
document in a fresh cell and fill the slot; return the cell id.  On a
fetch or parse error the slot stays empty. -/
def infoOp (s : ClientState) (net : Except RequestError BoardInfo) :
    Except RequestError (ClientState × Nat) × List FetchKind :=
  match s.cache.info with
  | some id => (.ok (s, id), [])
  | none =>
    match net with
    | .error e => (.error e, [.infoF])
    | .ok bi =>
      let id := s.nextId
      (.ok ({ s with
                infoHeap := Function.update s.infoHeap id bi,
                cache := { s.cache with info := some id },
                nextId := id + 1 }, id), [.infoF])

/-- client.rs 436-445: `Client::colors` (the same get-or-fetch shape as
`info`, hitting `boarddata`). -/
def colorsOp (s : ClientState) (net : Except RequestError (List Nat)) :
    Except RequestError (ClientState × Nat) × List FetchKind :=
  match s.cache.colors with
  | some id => (.ok (s, id), [])
  | none =>
    match net with
    | .error e => (.error e, [.boarddata])
    | .ok buf =>
      let id := s.nextId
      (.ok ({ s with
                byteHeap := Function.update s.byteHeap id buf,
                cache := { s.cache with colors := some id },
                nextId := id + 1 }, id), [.boarddata])

/-- Outcome of `Client::update_buffers`, which returns `()` in the source:
either it runs to completion or it panics (`expect` / slice-index panic),
carrying the state as mutated so far. -/
inductive UBOut
  | ok (s : ClientState)
  | panicked (msg : String) (s : ClientState)

/-- client.rs 521-551: `Client::update_buffers`.  Obtains `BoardInfo`
through the caching accessor `info()` (panics if that fetch fails), computes
`index = y * width + x`, writes the color at `index` if the color slot is
populated (slice indexing panics when `index` is out of the buffer), then,
if the timestamp slot is populated, requires the canvas-epoch slot
(`expect` panic otherwise), computes `now - epoch` seconds
(`duration_since(..).unwrap()` panics when `now < epoch`, `u32::try_from`
panics at 2^32) and writes it at `index`. -/
def update_buffers (s : ClientState) (now : Nat)
    (net : Except RequestError BoardInfo) (p : Pixel) :
    UBOut × List FetchKind :=
  match infoOp s net with
  | (.error _, fs) => (.panicked "Obtaining /info failed while updating buffers" s, fs)
  | (.ok (s1, iid), fs) =>
    let info := s1.infoHeap iid
    let index := p.y * info.width + p.x
    let step2 : UBOut :=
      match s1.cache.colors with
      | none => .ok s1
      | some cid =>
        let buf := s1.byteHeap cid
        if index < buf.length then
          .ok { s1 with byteHeap := Function.update s1.byteHeap cid (buf.set index p.color) }
        else
          .panicked "index out of bounds" s1
    match step2 with
    | .panicked m s2 => (.panicked m s2, fs)
    | .ok s2 =>
      match s2.cache.timestamps with
      | none => (.ok s2, fs)
      | some tid =>
        match s2.cache.createdAt with
        | none => (.panicked "Timestamps exist but canvas has no start time" s2, fs)
        | some eid =>
          let epoch := s2.timeHeap eid
          if now < epoch then
            (.panicked "duration_since failed" s2, fs)
          else
            let timestamp := now - epoch
            if timestamp < 2 ^ 32 then
              let buf := s2.tsHeap tid
              if index < buf.length then
                (.ok { s2 with
                         tsHeap := Function.update s2.tsHeap tid (buf.set index timestamp) }, fs)
              else
                (.panicked "index out of bounds" s2, fs)
            else
              (.panicked "Canvas is too old" s2, fs)

/-- client.rs 501-513: the per-pixel body of the timestamp reconstruction.
A non-virgin pixel (`virgin == 0`) gets
`u32::try_from((now - heat seconds).duration_since(canvas_start).unwrap().as_secs())`;
`duration_since` errors (and `unwrap` panics) when the pixel time precedes
`canvas_start`, and `try_from` fails (`expect "Canvas is too old"`) at
2^32.  A virgin pixel gets 0.  (`now - Duration::from_secs(heat)` is `Nat`
subtraction here; `heat` is a `u8`, far below any wall-clock second
count.) -/
def reconstructPixel (now canvasStart heat virgin : Nat) : Except String Nat :=
  if virgin = 0 then
    let pixelTime := now - heat
    if pixelTime < canvasStart then
      .error "duration_since failed"
    else if pixelTime - canvasStart < 2 ^ 32 then
      .ok (pixelTime - canvasStart)
    else
      .error "Canvas is too old"
  else
    .ok 0

/-- client.rs 501-513: `std::iter::zip(heatmap, virginmap).map(..).collect()`;
a panic inside the closure aborts the whole collection. -/
def reconstructAll (now canvasStart : Nat) (heat virgin : List Nat) :
    Except String (List Nat) :=
  (heat.zip virgin).mapM (fun hv => reconstructPixel now canvasStart hv.1 hv.2)

/-- Outcome of `Client::timestamps`: a populated slot id, a `RequestError`
propagated by `?`, or a panic from the reconstruction closure.  Every
variant carries the state (mutations made before an error persist, exactly
as in the source where the canvas-epoch insertion precedes the fetches). -/
inductive TsOut
  | ok (s : ClientState) (tid : Nat)
  | err (s : ClientState) (e : RequestError)
  | panicked (s : ClientState) (msg : String)

/-- State carried by a `TsOut`. -/
def TsOut.state : TsOut → ClientState
  | .ok s _ => s
  | .err s _ => s
  | .panicked s _ => s

/-- client.rs 469-519: `Client::timestamps`.  Lock the timestamp slot; if
populated return it.  Otherwise obtain `BoardInfo` via `info()` (errors
propagate), then `created_at.get_or_insert_with(now - (heatmap_cooldown + 1))`
— the canvas epoch is inserted once, before any buffer fetch — then fetch
the heatmap and virginmap (`try_join!`), reconstruct every pixel, and store
the resulting buffer in a fresh cell. -/
def timestampsOp (s : ClientState) (now : Nat)
    (netInfo : Except RequestError BoardInfo)
    (netHeat netVirgin : Except RequestError (List Nat)) :
    TsOut × List FetchKind :=
  match s.cache.timestamps with
  | some tid => (.ok s tid, [])
  | none =>
    match infoOp s netInfo with
    | (.error e, fs) => (.err s e, fs)
    | (.ok (s1, iid), fs) =>
      let info := s1.infoHeap iid
      let (s2, canvasStart) :=
        match s1.cache.createdAt with
        | some eid => (s1, s1.timeHeap eid)
        | none =>
          let eid := s1.nextId
          let canvasAge := info.heatmap_cooldown + 1
          let start := now - canvasAge
          ({ s1 with
               timeHeap := Function.update s1.timeHeap eid start,
               cache := { s1.cache with createdAt := some eid },
               nextId := eid + 1 }, start)
      match netHeat, netVirgin with
      | .error e, _ => (.err s2 e, fs ++ [.heatmap, .virginmap])
      | .ok _, .error e => (.err s2 e, fs ++ [.heatmap, .virginmap])
      | .ok heat, .ok virgin =>
        match reconstructAll now canvasStart heat virgin with
        | .error msg => (.panicked s2 msg, fs ++ [.heatmap, .virginmap])
        | .ok buf =>
          let tid := s2.nextId
          (.ok { s2 with
                   tsHeap := Function.update s2.tsHeap tid buf,
                   cache := { s2.cache with timestamps := some tid },
                   nextId := tid + 1 } tid,
           fs ++ [.heatmap, .virginmap])

/-!
Stream dispatch and connection lifecycle, from `Client::connect` and
`Client::start` (client.rs 568-701).
-/

/-- Outcome of dispatching one stream frame: the calls made to the event
handler in order, or a panic propagated from `update_buffers`. -/
inductive DispatchOut
  | ok (s : ClientState) (calls : List HandlerCall)
  | panicked (s : ClientState) (msg : String)

/-- client.rs 654-658: the `Message::Pixel` arm runs `update_buffers` on
each pixel in order before the handler is notified. -/
def applyPixels (now : Nat) (net : Except RequestError BoardInfo) :
    ClientState → List Pixel → UBOut × List FetchKind
  | s, [] => (.ok s, [])
  | s, p :: rest =>
    match update_buffers s now net p with
    | (.ok s1, fs) =>
      let (out, fs2) := applyPixels now net s1 rest
      (out, fs ++ fs2)
    | (.panicked m s1, fs) => (.panicked m s1, fs)

/-- An inbound websocket frame as the `for_each` body sees it, after
tungstenite's `message.into_text()` (client.rs 594): `into_text` yields the
payload as a `String` for Text frames and for Binary/Ping/Pong frames whose
bytes are valid UTF-8, and fails on a payload that is not valid UTF-8 — in
which case the `.expect("Websocket didn't send text")` at line 594
panics. -/
inductive WsFrame
  | text (t : String)
  | nonUtf8 (payload : List Nat)
deriving DecidableEq, Repr

/-- client.rs 592-685: the body of the `for_each` stream loop for one
frame.  `message.into_text().expect("Websocket didn't send text")` panics
on a frame whose payload is not valid UTF-8, before any parsing; otherwise
`parsed` is the outcome of `serde_json::from_str::<Message>(&text)` (the
serde parser itself is external): a frame that parses dispatches to its
handler — the `Pixel` arm also mutates cached buffers — and a frame that
does not parse is routed to `handle_unknown` with the verbatim text.  The
loop body itself never breaks the stream, but the `into_text` panic kills
the whole task. -/
def dispatchFrame (now : Nat) (net : Except RequestError BoardInfo)
    (s : ClientState) (frame : WsFrame) (parsed : Option Message) :
    DispatchOut × List FetchKind :=
  match frame with
  | .nonUtf8 _ => (.panicked s "Websocket didn't send text", [])
  | .text text =>
  match parsed with
  | some (.pixel pixels) =>
    (match applyPixels now net s pixels with
     | (.ok s1, fs) => (.ok s1 [.board_update pixels], fs)
     | (.panicked m s1, fs) => (.panicked s1 m, fs))
  | some (.users count) => (.ok s [.user_count count], [])
  | some (.alert sender message) => (.ok s [.alert sender message], [])
  | some (.notification n) => (.ok s [.notification n], [])
  | some (.chatMessage message) => (.ok s [.chat_message message], [])
  | some (.chatUserUpdate who updates) => (.ok s [.chat_user_update who updates], [])
  | some (.factionUpdate faction) => (.ok s [.faction_update faction], [])
  | some (.factionClear fid) => (.ok s [.faction_clear fid], [])
  | some (.chatHistory messages) => (.ok s [.chat_history messages], [])
  | some (.messageCooldown diff message) => (.ok s [.message_cooldown diff message], [])
  | some (.chatLookup target history chatbans) =>
      (.ok s [.chat_lookup target history chatbans], [])
  | some (.chatBan permanent reason expiry) =>
      (.ok s [.chatban permanent reason expiry], [])
  | some (.chatBanState permanent reason expiry) =>
      (.ok s [.chatban_state permanent reason expiry], [])
  | some (.chatPurge target initiator amount reason announce) =>
      (.ok s [.chat_purge target initiator amount reason announce], [])
  | some (.chatPurgeSpecific target initiator ids reason announce) =>
      (.ok s [.chat_purge_specific target initiator ids reason announce], [])
  | some (.acknowledge ack_for x y) => (.ok s [.acknowledge ack_for x y], [])
  | some (.adminPlacementOverrides o) => (.ok s [.overrides o], [])
  | some .captchaRequired => (.ok s [.captcha_required], [])
  | some (.captchaStatus success) => (.ok s [.captcha_status success], [])
  | some (.canUndo time) => (.ok s [.can_undo time], [])
  | some (.cooldown wait) => (.ok s [.cooldown wait], [])
  | some (.receivedReport report_id report_type) =>
      (.ok s [.received_report report_id report_type], [])
  | some (.pixels count cause) => (.ok s [.pixels_available count cause], [])
  | some (.userinfo username roles pc pcat banned be br method po cb cr cip ce rr dn cnc) =>
      (.ok s [.user_info username roles pc pcat banned be br method po cb cr cip ce rr dn cnc], [])
  | some (.pixelCounts pixel_count pixel_count_all_time) =>
      (.ok s [.pixel_counts pixel_count pixel_count_all_time], [])
  | some (.rename requested) => (.ok s [.rename requested], [])
  | some (.renameSuccess new_name) => (.ok s [.rename_success new_name], [])
  | none => (.ok s [.unknown text], [])

/-- Terminal outcome of the streaming phase. -/
inductive RunOut
  | ok (s : ClientState)
  | panicked (s : ClientState) (msg : String)

/-- The `for_each` loop over inbound frames: each frame is dispatched in
arrival order; its handler calls and fetches accumulate; a panic aborts. -/
def streamFold (now : Nat) (net : Except RequestError BoardInfo) :
    ClientState → List (WsFrame × Option Message) →
    RunOut × List HandlerCall × List FetchKind
  | s, [] => (.ok s, [], [])
  | s, (frame, parsed) :: rest =>
    match dispatchFrame now net s frame parsed with
    | (.ok s1 calls, fs) =>
      let (out, cs, fss) := streamFold now net s1 rest
      (out, calls ++ cs, fs ++ fss)
    | (.panicked s1 m, fs) => (.panicked s1 m, [], fs)

/-- client.rs 571-575: the scheme mapping of `Client::connect`
(`http → ws`, `https → wss`, anything else is `InvalidSiteScheme`). -/
def mapScheme : String → Option String
  | "http" => some "ws"
  | "https" => some "wss"
  | _ => none

/-- Externally visible steps of one `Client::connect` call, in order. -/
inductive ConnAction
  | wsConnect
  | clearCacheA
  | setConnected (b : Bool)
  | fetch (k : FetchKind)
  | handleReady
  | handleDisconnectA
  | sleep
  | connectCall
deriving DecidableEq, Repr

/-- Result of one `Client::connect` call. -/
inductive ConnectOutcome
  | ok
  | err (e : ConnectError)
  | panicked (msg : String)
deriving DecidableEq, Repr

/-- One full run of `Client::connect` (client.rs 568-694). -/
structure ConnectRun where
  state : ClientState
  trace : List ConnAction
  calls : List HandlerCall
  result : ConnectOutcome

/-- client.rs 568-694: `Client::connect`.  Scheme check first (no network
action on failure); then the websocket handshake (`ws` oracle); on success
`clear_cache` runs immediately, `connected` is set, `info()` is fetched
synchronously (its failure aborts the attempt — note the cache is already
cleared and `connected` stays true, as in the source where the early `?`
return skips the reset at line 690), `handle_ready` fires, the frames are
streamed, and finally `connected` is reset and `handle_disconnect` fires.
Disconnect clears nothing. -/
def connectOp (s : ClientState) (scheme : String) (ws : Except String Unit)
    (netInfo : Except RequestError BoardInfo) (now : Nat)
    (frames : List (WsFrame × Option Message)) : ConnectRun :=
  match mapScheme scheme with
  | none => ⟨s, [], [], .err (.InvalidSiteScheme scheme)⟩
  | some _ =>
    match ws with
    | .error e => ⟨s, [.wsConnect], [], .err (.WebsocketConnectFailed e)⟩
    | .ok () =>
      let s1 := clear_cache s
      let s2 := { s1 with connected := true }
      match infoOp s2 netInfo with
      | (.error e, fs) =>
        ⟨s2, [.wsConnect, .clearCacheA, .setConnected true] ++ fs.map .fetch, [],
         .err (.InfoFailed e)⟩
      | (.ok (s3, _), fs) =>
        match streamFold now netInfo s3 frames with
        | (.ok s4, calls, fss) =>
          ⟨{ s4 with connected := false },
           [.wsConnect, .clearCacheA, .setConnected true] ++ fs.map .fetch
             ++ [.handleReady] ++ fss.map .fetch
             ++ [.setConnected false, .handleDisconnectA],
           .ready :: calls ++ [.disconnect], .ok⟩
        | (.panicked s4 m, calls, fss) =>
          ⟨s4,
           [.wsConnect, .clearCacheA, .setConnected true] ++ fs.map .fetch
             ++ [.handleReady] ++ fss.map .fetch,
           .ready :: calls, .panicked m⟩

/-- client.rs 696-701: `Client::start` is `loop { connect; sleep }` — the
`Result` of `connect` is discarded and the loop is unconditional.  `n`
iterations of the loop, accumulating the trace. -/
def startTrace (scheme : String) (ws : Except String Unit)
    (netInfo : Except RequestError BoardInfo) (now : Nat)
    (frames : List (WsFrame × Option Message)) :
    ClientState → Nat → ClientState × List ConnAction
  | s, 0 => (s, [])
  | s, n + 1 =>
    let r := connectOp s scheme ws netInfo now frames
    let (s', as) := startTrace scheme ws netInfo now frames r.state n
    (s', .connectCall :: r.trace ++ [.sleep] ++ as)


/-!
Single-flight accessor protocol (C8).  Each cached resource accessor
(client.rs 394-420 `info`, 436-445 `colors`, and the analogous `initial`,
`mask`, `timestamps`) has the shape

  let mut slot = self.cache.X.lock().await;      -- exclusive slot mutex
  if slot.is_none() { let b = fetch().await?;    -- fetch WHILE HOLDING it
                      *slot = Some(Arc::new(b)); }
  Ok(slot.as_ref().unwrap().clone())             -- clone of the shared Arc

Because the `tokio::sync::Mutex` guard is held across the fetch `await`,
the bodies for one slot are mutually exclusive.  The transition system
below interleaves any number of logical tasks running this body against
one slot: a task acquires the free mutex, then either observes a populated
slot and returns its cell (`hit`), or fetches (incrementing the global
fetch counter; the fresh cell id is the counter's prior value) and stores
the result before releasing (`store`).
-/

/-- Program counter of one task running the accessor body. -/
inductive TaskPc
  | start
  | locked
  | fetched (b : Nat)
  | done (b : Nat)
deriving DecidableEq, Repr

/-- One slot's mutex, contents, fetch count, and the set of tasks. -/
structure SFState where
  lockHeld : Option Nat
  slot : Option Nat
  fetches : Nat
  tasks : Nat → TaskPc

/-- Initial state: slot empty, no fetches, every task about to call the
accessor. -/
def sfInit : SFState := ⟨none, none, 0, fun _ => .start⟩

/-- Interleaved small-step semantics of the accessor bodies. -/
inductive SFStep : SFState → SFState → Prop
  | acquire (s : SFState) (i : Nat) :
      s.lockHeld = none → s.tasks i = .start →
      SFStep s { s with lockHeld := some i,
                        tasks := Function.update s.tasks i .locked }
  | hit (s : SFState) (i b : Nat) :
      s.lockHeld = some i → s.tasks i = .locked → s.slot = some b →
      SFStep s { s with lockHeld := none,
                        tasks := Function.update s.tasks i (.done b) }
  | fetch (s : SFState) (i : Nat) :
      s.lockHeld = some i → s.tasks i = .locked → s.slot = none →
      SFStep s { s with fetches := s.fetches + 1,
                        tasks := Function.update s.tasks i (.fetched s.fetches) }
  | store (s : SFState) (i b : Nat) :
      s.lockHeld = some i → s.tasks i = .fetched b →
      SFStep s { s with slot := some b, lockHeld := none,
                        tasks := Function.update s.tasks i (.done b) }

/-- States reachable from `sfInit` by any interleaving. -/
def SFReachable (s : SFState) : Prop := Relation.ReflTransGen SFStep sfInit s

/-- Inductive invariant of the single-flight protocol. -/
structure SFInv (s : SFState) : Prop where
  le1 : s.fetches ≤ 1
  slot0 : ∀ b, s.slot = some b → b = 0 ∧ s.fetches = 1
  locked_own : ∀ i, s.tasks i = .locked → s.lockHeld = some i
  fetched_own : ∀ i b, s.tasks i = .fetched b →
    s.lockHeld = some i ∧ s.slot = none ∧ b = 0 ∧ s.fetches = 1
  done0 : ∀ i b, s.tasks i = .done b → b = 0 ∧ s.slot = some 0
  one_src : s.fetches = 1 → s.slot = some 0 ∨ ∃ j b, s.tasks j = .fetched b

theorem sfInv_init : SFInv sfInit := by
  constructor <;> simp [sfInit]
/-- Case split for reading an updated task map. -/
theorem update_eq_cases {f : Nat → TaskPc} {i j : Nat} {v w : TaskPc}
    (h : Function.update f i v j = w) :
    (j = i ∧ v = w) ∨ (¬ j = i ∧ f j = w) := by
  by_cases hij : j = i
  · subst hij
    rw [Function.update_same] at h
    exact Or.inl ⟨rfl, h⟩
  · rw [Function.update_noteq hij] at h
    exact Or.inr ⟨hij, h⟩

theorem sfInv_step {s t : SFState} (hs : SFInv s) (h : SFStep s t) : SFInv t := by
  cases h with
  | acquire i hlock hpc =>
    refine ⟨hs.le1, fun b hb => hs.slot0 b hb, ?_, ?_, ?_, ?_⟩
    · intro j hj
      rcases update_eq_cases hj with ⟨hij, hv⟩ | ⟨hij, hfj⟩
      · exact congrArg some hij.symm
      · exact absurd (hs.locked_own j hfj) (by simp [hlock])
    · intro j b hj
      rcases update_eq_cases hj with ⟨hij, hv⟩ | ⟨hij, hfj⟩
      · simp at hv
      · exact absurd (hs.fetched_own j b hfj).1 (by simp [hlock])
    · intro j b hj
      rcases update_eq_cases hj with ⟨hij, hv⟩ | ⟨hij, hfj⟩
      · simp at hv
      · exact hs.done0 j b hfj
    · intro hf
      rcases hs.one_src hf with h1 | ⟨j, b, hj⟩
      · exact Or.inl h1
      · exact absurd (hs.fetched_own j b hj).1 (by simp [hlock])
  | hit i b hlock hpc hslot =>
    have hb0 := hs.slot0 b hslot
    refine ⟨hs.le1, fun c hc => hs.slot0 c hc, ?_, ?_, ?_, ?_⟩
    · intro j hj
      rcases update_eq_cases hj with ⟨hij, hv⟩ | ⟨hij, hfj⟩
      · simp at hv
      · have hl := hs.locked_own j hfj
        rw [hlock] at hl
        exact absurd (Option.some.inj hl).symm hij
    · intro j c hj
      rcases update_eq_cases hj with ⟨hij, hv⟩ | ⟨hij, hfj⟩
      · simp at hv
      · have hl := (hs.fetched_own j c hfj).1
        rw [hlock] at hl
        exact absurd (Option.some.inj hl).symm hij
    · intro j c hj
      rcases update_eq_cases hj with ⟨hij, hv⟩ | ⟨hij, hfj⟩
      · injection hv with hbc
        exact ⟨hbc ▸ hb0.1, (hbc ▸ hb0.1 : c = 0) ▸ (hbc ▸ hslot : s.slot = some c)⟩
      · exact hs.done0 j c hfj
    · intro _
      exact Or.inl (hb0.1 ▸ hslot)
  | fetch i hlock hpc hslot =>
    have hnofetched : ∀ j c, s.tasks j ≠ .fetched c := by
      intro j c hj
      have hl := (hs.fetched_own j c hj).1
      rw [hlock] at hl
      have hij := Option.some.inj hl
      subst hij
      rw [hpc] at hj
      simp at hj
    have hf0 : s.fetches = 0 := by
      rcases Nat.eq_zero_or_pos s.fetches with h0 | hpos
      · exact h0
      · exfalso
        have hf1 : s.fetches = 1 := le_antisymm hs.le1 hpos
        rcases hs.one_src hf1 with hsl | ⟨j, c, hj⟩
        · rw [hslot] at hsl
          cases hsl
        · exact hnofetched j c hj
    refine ⟨?_, ?_, ?_, ?_, ?_, ?_⟩
    · show s.fetches + 1 ≤ 1
      omega
    · intro c hc
      exact absurd hc (by simp [hslot])
    · intro j hj
      rcases update_eq_cases hj with ⟨hij, hv⟩ | ⟨hij, hfj⟩
      · simp at hv
      · exact hs.locked_own j hfj
    · intro j c hj
      rcases update_eq_cases hj with ⟨hij, hv⟩ | ⟨hij, hfj⟩
      · injection hv with hc
        refine ⟨?_, hslot, hc ▸ hf0, ?_⟩
        · rw [hij]
          exact hlock
        · show s.fetches + 1 = 1
          omega
      · exact absurd hfj (hnofetched j c)
    · intro j c hj
      rcases update_eq_cases hj with ⟨hij, hv⟩ | ⟨hij, hfj⟩
      · simp at hv
      · have hd := (hs.done0 j c hfj).2
        rw [hslot] at hd
        cases hd
    · intro _
      exact Or.inr ⟨i, s.fetches, by simp [Function.update_same]⟩
  | store i b hlock hpc =>
    have hown := hs.fetched_own i b hpc
    refine ⟨hs.le1, ?_, ?_, ?_, ?_, ?_⟩
    · intro c hc
      have hc' : some b = some c := hc
      injection hc' with hbc
      exact ⟨hbc ▸ hown.2.2.1, hown.2.2.2⟩
    · intro j hj
      rcases update_eq_cases hj with ⟨hij, hv⟩ | ⟨hij, hfj⟩
      · simp at hv
      · have hl := hs.locked_own j hfj
        rw [hlock] at hl
        exact absurd (Option.some.inj hl).symm hij
    · intro j c hj
      rcases update_eq_cases hj with ⟨hij, hv⟩ | ⟨hij, hfj⟩
      · simp at hv
      · have hl := (hs.fetched_own j c hfj).1
        rw [hlock] at hl
        exact absurd (Option.some.inj hl).symm hij
    · intro j c hj
      rcases update_eq_cases hj with ⟨hij, hv⟩ | ⟨hij, hfj⟩
      · injection hv with hbc
        exact ⟨hbc ▸ hown.2.2.1, congrArg some hown.2.2.1⟩
      · have hd := (hs.done0 j c hfj).2
        rw [hown.2.1] at hd
        cases hd
    · intro _
      exact Or.inl (congrArg some hown.2.2.1)

theorem sfInv_reachable {s : SFState} (h : SFReachable s) : SFInv s := by
  induction h with
  | refl => exact sfInv_init
  | tail _ hstep ih => exact sfInv_step ih hstep

/-!
Concrete fixtures used by witnesses and counterexamples.
-/

/-- A concrete `/info` document (10×10 canvas, heatmap cooldown 300 s). -/
def boardInfo0 : BoardInfo where
  canvas_code := "1"
  width := 10
  height := 10
  palette := [⟨"white", (255, 255, 255)⟩]
  cooldown_info := ⟨.static_, 60, ⟨0⟩⟩
  captcha_key := ""
  heatmap_cooldown := 300
  max_stacked := 6
  auth_services := []
  registration_enabled := true
  chat_enabled := true
  chat_respects_canvas_ban := true
  chat_character_limit := 256
  chat_banner_text := []
  snip_mode := false
  custom_emoji := []
  cors_base := ""
  cors_param := none
  chat_ratelimit_message := ""

/-- A client state with every slot empty. -/
def emptyState : ClientState where
  cache := ClientCache.empty
  infoHeap := fun _ => boardInfo0
  byteHeap := fun _ => []
  tsHeap := fun _ => []
  timeHeap := fun _ => 0
  nextId := 0
  connected := false

/-- State carried by a `UBOut`. -/
def UBOut.state : UBOut → ClientState
  | .ok s => s
  | .panicked _ s => s

/-- C2 counterexample: with base scheme `ftp`, `connect` returns
`InvalidSiteScheme` — yet `start` calls `connect` again on the next loop
iteration, so the error is not excluded from the retry loop as the claim
states. -/
theorem C2_retry_counterexample :
    (connectOp emptyState "ftp" (.ok ()) (.ok boardInfo0) 0 []).result
      = .err (.InvalidSiteScheme "ftp") ∧
    (startTrace "ftp" (.ok ()) (.ok boardInfo0) 0 [] emptyState 2).2
      = [.connectCall, .sleep, .connectCall, .sleep] := by
  constructor <;> rfl

/-- C2 (amended): an unsupported base-address scheme makes `connect` fail
immediately with `InvalidSiteScheme`, before any network action and
without touching the state; but `Client::start` discards `connect`'s
result and retries unconditionally, so every one of its `n` loop
iterations performs a connect attempt even for this permanent error. -/
theorem C2_scheme_rejected_but_retried (s : ClientState) (scheme : String)
    (ws : Except String Unit) (netInfo : Except RequestError BoardInfo)
    (now : Nat) (frames : List (WsFrame × Option Message))
    (h : mapScheme scheme = none) :
    (connectOp s scheme ws netInfo now frames).result
      = .err (.InvalidSiteScheme scheme) ∧
    (connectOp s scheme ws netInfo now frames).trace = [] ∧
    (connectOp s scheme ws netInfo now frames).state = s ∧
    (∀ n, ((startTrace scheme ws netInfo now frames s n).2).count .connectCall = n) := by
  have hconn : connectOp s scheme ws netInfo now frames
      = ⟨s, [], [], .err (.InvalidSiteScheme scheme)⟩ := by
    simp [connectOp, h]
  refine ⟨by rw [hconn], by rw [hconn], by rw [hconn], ?_⟩
  intro n
  induction n with
  | zero => rfl
  | succ n ih =>
    simp only [startTrace, hconn]
    simp only [startTrace, hconn] at ih
    simp [List.count_cons, List.count_append, ih]

/-- C2 witness: the amended statement evaluated at scheme `ftp`. -/
theorem C2_scheme_rejected_but_retried_witness :
    (connectOp emptyState "ftp" (.ok ()) (.ok boardInfo0) 0 []).trace = [] ∧
    ((startTrace "ftp" (.ok ()) (.ok boardInfo0) 0 [] emptyState 3).2).count
      ConnAction.connectCall = 3 := by
  have h := C2_scheme_rejected_but_retried emptyState "ftp" (.ok ())
    (.ok boardInfo0) 0 [] rfl
  exact ⟨h.2.1, h.2.2.2 3⟩

/-- C10: after a successful handshake the cache is cleared before the
Ready-phase `/info` fetch, so when that fetch fails the attempt returns
`InfoFailed` with the cache already emptied — stale data does not survive
a post-handshake connection failure. -/
theorem C10_cleared_cache_on_ready_failure (s : ClientState) (e : RequestError)
    (now : Nat) (frames : List (WsFrame × Option Message)) :
    (connectOp s "http" (.ok ()) (.error e) now frames).result
      = .err (.InfoFailed e) ∧
    (connectOp s "http" (.ok ()) (.error e) now frames).state.cache
      = ClientCache.empty ∧
    (connectOp s "http" (.ok ()) (.error e) now frames).trace
      = [.wsConnect, .clearCacheA, .setConnected true, .fetch .infoF] := by
  refine ⟨rfl, rfl, rfl⟩

/-- C9: cache invalidation only empties the slots; every heap cell backing
a previously returned `Arc` handle is untouched, so a handle obtained
before `clear_cache` still reads the same buffer afterwards (spelled out
for a handle returned by the `colors` accessor). -/
theorem C9_handles_survive_invalidation (s : ClientState) :
    (clear_cache s).byteHeap = s.byteHeap ∧
    (clear_cache s).tsHeap = s.tsHeap ∧
    (clear_cache s).infoHeap = s.infoHeap ∧
    (clear_cache s).timeHeap = s.timeHeap ∧
    (clear_cache s).cache.info = none ∧
    (clear_cache s).cache.colors = none ∧
    (clear_cache s).cache.initial = none ∧
    (clear_cache s).cache.mask = none ∧
    (clear_cache s).cache.timestamps = none ∧
    (clear_cache s).cache.createdAt = none ∧
    (∀ net s' id fs, colorsOp s net = (.ok (s', id), fs) →
      (clear_cache s').byteHeap id = s'.byteHeap id) := by
  exact ⟨rfl, rfl, rfl, rfl, rfl, rfl, rfl, rfl, rfl, rfl, fun _ _ _ _ _ => rfl⟩

/-- C7 counterexample: a frame whose payload is not valid UTF-8 (a binary
or ping frame) is an inbound frame that does not parse as a known
`Message`, yet the client panics on it at `into_text().expect` (client.rs
594) before any parsing: no `handle_unknown` call is made, the remaining
frames are never processed (the stream terminates), and the connection
run ends in a panic with `handle_disconnect` never fired — refuting the
claimed universal fallback. -/
theorem C7_non_text_frame_counterexample :
    dispatchFrame 0 (.ok boardInfo0) emptyState (.nonUtf8 [255]) none
      = (.panicked emptyState "Websocket didn't send text", []) ∧
    streamFold 0 (.ok boardInfo0) emptyState
        [(.nonUtf8 [255], none), (.text "later", none)]
      = (.panicked emptyState "Websocket didn't send text", [], []) ∧
    (connectOp emptyState "http" (.ok ()) (.ok boardInfo0) 0
        [(.nonUtf8 [255], none)]).result
      = .panicked "Websocket didn't send text" ∧
    HandlerCall.disconnect ∉
      (connectOp emptyState "http" (.ok ()) (.ok boardInfo0) 0
        [(.nonUtf8 [255], none)]).calls := by
  refine ⟨rfl, rfl, rfl, ?_⟩
  have hc : (connectOp emptyState "http" (.ok ()) (.ok boardInfo0) 0
      [(.nonUtf8 [255], none)]).calls = [HandlerCall.ready] := rfl
  rw [hc]
  simp

/-- C7 (amended): for every inbound frame whose payload converts to text
(a Text frame, or a Binary/Ping/Pong frame with valid UTF-8) and does not
parse as a known `Message`, the client invokes exactly one `handle_unknown`
call carrying the verbatim text, leaves the entire client state (cache
slots, heaps, connected flag) unchanged, performs no fetch, and the stream
continues with the remaining frames exactly as if the frame had not been
there; a frame whose payload is not valid UTF-8, however, panics at
`into_text().expect` with no fallback notification, terminating the
stream. -/
theorem C7_unknown_text_frame_fallback (now : Nat)
    (net : Except RequestError BoardInfo) (s : ClientState) (text : String)
    (rest : List (WsFrame × Option Message)) :
    dispatchFrame now net s (.text text) none = (.ok s [.unknown text], []) ∧
    streamFold now net s ((.text text, none) :: rest)
      = ((streamFold now net s rest).1,
         .unknown text :: (streamFold now net s rest).2.1,
         (streamFold now net s rest).2.2) ∧
    (∀ payload parsed, dispatchFrame now net s (.nonUtf8 payload) parsed
      = (.panicked s "Websocket didn't send text", [])) := by
  refine ⟨rfl, ?_, fun _ _ => rfl⟩
  simp [streamFold, dispatchFrame]

/-- C5: slots are reset in one step (all six slot locks held) at the moment
a new websocket connection is established — the action immediately after
the successful handshake is the cache clear, before any fetch — and never
at disconnect: the clear action occurs nowhere later in the connect trace,
and `clear_cache` itself empties every slot while leaving every heap cell
(hence every previously handed-out buffer) intact and readable. -/
theorem C5_clear_on_connect_never_on_disconnect (s : ClientState)
    (netInfo : Except RequestError BoardInfo) (now : Nat)
    (frames : List (WsFrame × Option Message)) :
    ((clear_cache s).cache = ClientCache.empty ∧
     (clear_cache s).byteHeap = s.byteHeap ∧
     (clear_cache s).tsHeap = s.tsHeap ∧
     (clear_cache s).infoHeap = s.infoHeap ∧
     (clear_cache s).timeHeap = s.timeHeap) ∧
    (∃ rest, (connectOp s "http" (.ok ()) netInfo now frames).trace
        = ConnAction.wsConnect :: ConnAction.clearCacheA :: rest
      ∧ ConnAction.clearCacheA ∉ rest) := by
  refine ⟨⟨rfl, rfl, rfl, rfl, rfl⟩, ?_⟩
  unfold connectOp
  split
  · simp_all [mapScheme]
  · split
    · simp_all
    · dsimp only
      split
      · exact ⟨_, rfl, by simp⟩
      · split
        · exact ⟨_, rfl, by simp⟩
        · exact ⟨_, rfl, by simp⟩

/-- C4: per-pixel reconstruction — a pixel with nonzero virginmap value
reconstructs to 0 regardless of its heatmap value; otherwise the result is
`(now - heat seconds) - CanvasEpoch` in whole seconds — and the canvas
epoch is inserted once per connection: when absent it is set to
`now - (heatmap_cooldown + 1)` at the instant `timestamps()` infers it,
when already present it is left untouched and used as-is, and the stored
timestamp buffer is exactly the per-pixel reconstruction over the zipped
heatmap/virginmap. -/
theorem C4_reconstruction_formula (now epoch heat virgin : Nat) :
    (virgin ≠ 0 → reconstructPixel now epoch heat virgin = .ok 0) ∧
    (virgin = 0 → heat ≤ now → epoch ≤ now - heat → now - heat - epoch < 2 ^ 32 →
      reconstructPixel now epoch heat virgin = .ok (now - heat - epoch)) ∧
    (∀ (s : ClientState) (iid : Nat) (netInfo : Except RequestError BoardInfo)
        (netHeat netVirgin : Except RequestError (List Nat)),
      s.cache.timestamps = none → s.cache.info = some iid →
      s.cache.createdAt = none →
      (timestampsOp s now netInfo netHeat netVirgin).1.state.cache.createdAt
          = some s.nextId ∧
      (timestampsOp s now netInfo netHeat netVirgin).1.state.timeHeap s.nextId
          = now - ((s.infoHeap iid).heatmap_cooldown + 1)) ∧
    (∀ (s : ClientState) (iid eid : Nat) (netInfo : Except RequestError BoardInfo)
        (netHeat netVirgin : Except RequestError (List Nat)),
      s.cache.timestamps = none → s.cache.info = some iid →
      s.cache.createdAt = some eid →
      (timestampsOp s now netInfo netHeat netVirgin).1.state.cache.createdAt
          = some eid ∧
      (timestampsOp s now netInfo netHeat netVirgin).1.state.timeHeap
          = s.timeHeap) ∧
    (∀ (s : ClientState) (iid eid : Nat) (netInfo : Except RequestError BoardInfo)
        (heatL virginL buf : List Nat),
      s.cache.timestamps = none → s.cache.info = some iid →
      s.cache.createdAt = some eid →
      reconstructAll now (s.timeHeap eid) heatL virginL = .ok buf →
      (timestampsOp s now netInfo (.ok heatL) (.ok virginL)).1
          = .ok { s with
                    tsHeap := Function.update s.tsHeap s.nextId buf,
                    cache := { s.cache with timestamps := some s.nextId },
                    nextId := s.nextId + 1 } s.nextId ∧
      (timestampsOp s now netInfo (.ok heatL) (.ok virginL)).2
          = [.heatmap, .virginmap]) := by
  refine ⟨?_, ?_, ?_, ?_, ?_⟩
  · intro hv
    simp [reconstructPixel, hv]
  · intro hv h1 h2 h3
    simp only [reconstructPixel, if_pos hv]
    rw [if_neg (by omega), if_pos h3]
  · intro s iid netInfo netHeat netVirgin hts hinfo hca
    rcases netHeat with e | heatL
    · simp [timestampsOp, infoOp, hts, hinfo, hca, TsOut.state]
    · rcases netVirgin with e | virginL
      · simp [timestampsOp, infoOp, hts, hinfo, hca, TsOut.state]
      · rcases hra : reconstructAll now (now - ((s.infoHeap iid).heatmap_cooldown + 1))
            heatL virginL with msg | buf
        · simp [timestampsOp, infoOp, hts, hinfo, hca, hra, TsOut.state]
        · simp [timestampsOp, infoOp, hts, hinfo, hca, hra, TsOut.state]
  · intro s iid eid netInfo netHeat netVirgin hts hinfo hca
    rcases netHeat with e | heatL
    · simp [timestampsOp, infoOp, hts, hinfo, hca, TsOut.state]
    · rcases netVirgin with e | virginL
      · simp [timestampsOp, infoOp, hts, hinfo, hca, TsOut.state]
      · rcases hra : reconstructAll now (s.timeHeap eid) heatL virginL with msg | buf
        · simp [timestampsOp, infoOp, hts, hinfo, hca, hra, TsOut.state]
        · simp [timestampsOp, infoOp, hts, hinfo, hca, hra, TsOut.state]
  · intro s iid eid netInfo heatL virginL buf hts hinfo hca hra
    simp [timestampsOp, infoOp, hts, hinfo, hca, hra]

/-- A state whose metadata slot is populated (cell 0 holds `boardInfo0`). -/
def infoCachedState : ClientState :=
  { emptyState with
      cache := { ClientCache.empty with info := some 0 },
      nextId := 1 }

/-- C4 witness: the reconstruction at the spec's own example numbers
(cooldown 300, heat 50, virgin 0; epoch inferred at T0 = 5000 as 4699,
evaluation at T = 6000 giving (6000-50)-4699 = 1251), a virgin pixel, and
the epoch insertion on a concrete state. -/
theorem C4_reconstruction_formula_witness :
    reconstructPixel 6000 4699 77 3 = .ok 0 ∧
    reconstructPixel 6000 4699 50 0 = .ok 1251 ∧
    (timestampsOp infoCachedState 5000 (.ok boardInfo0) (.ok [50])
        (.ok [0])).1.state.cache.createdAt = some 1 ∧
    (timestampsOp infoCachedState 5000 (.ok boardInfo0) (.ok [50])
        (.ok [0])).1.state.timeHeap 1 = 4699 := by
  have h1 := (C4_reconstruction_formula 6000 4699 77 3).1 (by decide)
  have h2 := (C4_reconstruction_formula 6000 4699 50 0).2.1 rfl
    (by omega) (by omega) (by norm_num)
  have h3 := (C4_reconstruction_formula 5000 0 0 0).2.2.1 infoCachedState 0
    (.ok boardInfo0) (.ok [50]) (.ok [0]) rfl rfl rfl
  have harith : (6000 : Nat) - 50 - 4699 = 1251 := by norm_num
  refine ⟨h1, ?_, ?_, ?_⟩
  · rw [harith] at h2
    exact h2
  · exact h3.1
  · have := h3.2
    simpa [infoCachedState, emptyState, boardInfo0] using this

/-- C6 counterexample: applying a pixel-change event when the metadata
slot is empty performs a network fetch of `/info` (through the caching
accessor `info()` that `update_buffers` calls), contradicting "issues no
network fetch ... of that resource or of any other resource". -/
theorem C6_update_fetches_info_counterexample :
    (update_buffers emptyState 0 (.ok boardInfo0) ⟨0, 0, 0⟩).2
      = [FetchKind.infoF] := rfl

/-- C6 (amended): update_buffers never fetches any pixel buffer — an empty
color (resp. timestamp) slot simply skips the corresponding write — and it
performs no network fetch at all provided the metadata slot is populated
(which the streaming loop guarantees, since connect fetches `/info` before
streaming); only an empty metadata slot makes it fetch `/info`. -/
theorem C6_skip_without_fetch (s : ClientState) (now : Nat)
    (net : Except RequestError BoardInfo) (p : Pixel) (iid : Nat)
    (hinfo : s.cache.info = some iid) :
    (update_buffers s now net p).2 = [] ∧
    (s.cache.colors = none →
      ((update_buffers s now net p).1.state).byteHeap = s.byteHeap) ∧
    (s.cache.timestamps = none →
      ((update_buffers s now net p).1.state).tsHeap = s.tsHeap) ∧
    (s.cache.colors = none → s.cache.timestamps = none →
      (update_buffers s now net p).1 = .ok s) := by
  refine ⟨?_, ?_, ?_, ?_⟩
  · unfold update_buffers infoOp
    rw [hinfo]
    dsimp only
    repeat' split
    all_goals rfl
  · intro hc
    unfold update_buffers infoOp
    rw [hinfo]
    dsimp only
    rw [hc]
    dsimp only
    repeat' split
    all_goals simp_all [UBOut.state]
  · intro ht
    unfold update_buffers infoOp
    rw [hinfo]
    dsimp only
    rcases hc : s.cache.colors with _ | cid
    · dsimp only
      rw [ht]
      rfl
    · dsimp only
      by_cases hidx : p.y * (s.infoHeap iid).width + p.x < (s.byteHeap cid).length
      · rw [if_pos hidx]
        dsimp only
        rw [ht]
        rfl
      · rw [if_neg hidx]
        rfl
  · intro hc ht
    unfold update_buffers infoOp
    rw [hinfo]
    dsimp only
    rw [hc]
    dsimp only
    rw [ht]

/-- C6 witness: the amended statement at a concrete state whose metadata
slot is cached and whose other slots are empty. -/
theorem C6_skip_without_fetch_witness :
    (update_buffers infoCachedState 50 (.ok boardInfo0) ⟨2, 3, 7⟩).2 = [] ∧
    (update_buffers infoCachedState 50 (.ok boardInfo0) ⟨2, 3, 7⟩).1
      = .ok infoCachedState := by
  have h := C6_skip_without_fetch infoCachedState 50 (.ok boardInfo0)
    ⟨2, 3, 7⟩ 0 rfl
  exact ⟨h.1, h.2.2.2 rfl rfl⟩

/-- A state with metadata cached (cell 0) and a 100-byte color buffer
cached (cell 1), matching the 10×10 board of `boardInfo0`. -/
def colorsCachedState : ClientState :=
  { emptyState with
      cache := { ClientCache.empty with info := some 0, colors := some 1 },
      byteHeap := fun i => if i = 1 then List.replicate 100 0 else [],
      nextId := 2 }

/-- A state with metadata cached (cell 0) and a timestamp buffer cached
(cell 1) but no canvas-epoch slot — the internal-consistency violation of
client.rs 544. -/
def tsNoEpochState : ClientState :=
  { emptyState with
      cache := { ClientCache.empty with info := some 0, timestamps := some 1 },
      tsHeap := fun i => if i = 1 then List.replicate 100 0 else [],
      nextId := 2 }

/-- C3 counterexample: the out-of-range pixel (x=12, y=3) on the cached
10×10 board (x ≥ width) maps to linear index 3·10+12 = 42, which is inside
the 100-byte color buffer, so `update_buffers` completes without any error
and silently writes color 7 at index 42 — a wrong buffer index (it belongs
to pixel (2,4)).  The claim's "explicit structured error result ... never
allowed to silently write to a wrong buffer index" is false at this
input. -/
theorem C3_silent_wrong_write_counterexample :
    (colorsCachedState.infoHeap 0).width = 10 ∧ 10 ≤ 12 ∧
    (∃ s', (update_buffers colorsCachedState 50 (.ok boardInfo0) ⟨12, 3, 7⟩).1
        = UBOut.ok s'
      ∧ s'.byteHeap 1 = (List.replicate 100 0).set 42 7) ∧
    ((List.replicate 100 0).set 42 7).get? 42 = some 7 := by
  exact ⟨rfl, by omega, ⟨_, rfl, rfl⟩, rfl⟩

/-- C3 (amended): internal-consistency violations are signalled by panics
carrying a message, never by a structured error result (`update_buffers`
returns no `Result` at all): a linear index at or past the cached color
buffer's length hits the slice-index panic; a cached timestamp buffer with
an absent canvas epoch hits the `expect` "Timestamps exist but canvas has
no start time"; a reconstructed age not representable in 32 bits hits the
`expect` "Canvas is too old"; and an out-of-range x whose linear index
y·width+x still lands inside the buffer is written there silently, with no
error of any kind (see the counterexample). -/
theorem C3_violations_panic (s : ClientState) (now : Nat)
    (net : Except RequestError BoardInfo) (p : Pixel) (iid : Nat) :
    (s.cache.info = some iid → ∀ cid, s.cache.colors = some cid →
      ¬ p.y * (s.infoHeap iid).width + p.x < (s.byteHeap cid).length →
      (update_buffers s now net p).1 = .panicked "index out of bounds" s) ∧
    (s.cache.info = some iid → s.cache.colors = none →
      ∀ tid, s.cache.timestamps = some tid → s.cache.createdAt = none →
      (update_buffers s now net p).1
        = .panicked "Timestamps exist but canvas has no start time" s) ∧
    (∀ now2 epoch heat, heat ≤ now2 → epoch ≤ now2 - heat →
      ¬ now2 - heat - epoch < 2 ^ 32 →
      reconstructPixel now2 epoch heat 0 = .error "Canvas is too old") := by
  refine ⟨?_, ?_, ?_⟩
  · intro hinfo cid hc hidx
    unfold update_buffers infoOp
    rw [hinfo]
    dsimp only
    rw [hc]
    dsimp only
    rw [if_neg hidx]
  · intro hinfo hc tid ht hca
    unfold update_buffers infoOp
    rw [hinfo]
    dsimp only
    rw [hc]
    dsimp only
    rw [ht]
    dsimp only
    rw [hca]
  · intro now2 epoch heat h1 h2 h3
    unfold reconstructPixel
    rw [if_pos rfl]
    dsimp only
    rw [if_neg (by omega), if_neg h3]

/-- C3 witness: the panic branches of the amended statement at concrete
inputs — index 20·10+5 = 205 past the 100-byte color buffer, a cached
timestamp buffer with no epoch, and an age of 2^33 seconds. -/
theorem C3_violations_panic_witness :
    (update_buffers colorsCachedState 50 (.ok boardInfo0) ⟨5, 20, 7⟩).1
      = .panicked "index out of bounds" colorsCachedState ∧
    (update_buffers tsNoEpochState 50 (.ok boardInfo0) ⟨2, 3, 7⟩).1
      = .panicked "Timestamps exist but canvas has no start time" tsNoEpochState ∧
    reconstructPixel (2 ^ 33) 0 0 0 = .error "Canvas is too old" := by
  have h := C3_violations_panic colorsCachedState 50 (.ok boardInfo0) ⟨5, 20, 7⟩ 0
  have h2 := C3_violations_panic tsNoEpochState 50 (.ok boardInfo0) ⟨2, 3, 7⟩ 0
  exact ⟨h.1 rfl 1 rfl (by decide), h2.2.1 rfl rfl 1 rfl rfl,
    h.2.2 (2 ^ 33) 0 0 (by omega) (by omega) (by decide)⟩

/-- C8: in every reachable interleaving of any number of concurrent
accessor calls for one uncached resource, at most one fetch is ever
performed; any two callers that have completed hold the same buffer cell;
and once any caller has completed, exactly one fetch has happened. -/
theorem C8_single_flight (s : SFState) (h : SFReachable s) :
    s.fetches ≤ 1 ∧
    (∀ i j b c, s.tasks i = .done b → s.tasks j = .done c → b = c) ∧
    ((∃ i b, s.tasks i = .done b) → s.fetches = 1) := by
  have hs := sfInv_reachable h
  refine ⟨hs.le1, ?_, ?_⟩
  · intro i j b c hi hj
    rw [(hs.done0 i b hi).1, (hs.done0 j c hj).1]
  · rintro ⟨i, b, hi⟩
    exact (hs.slot0 0 (hs.done0 i b hi).2).2

/-- After task 0 acquires the slot mutex. -/
def sfS1 : SFState :=
  { sfInit with lockHeld := some 0,
                tasks := Function.update sfInit.tasks 0 .locked }

/-- After task 0 fetches (one network request, cell id 0). -/
def sfS2 : SFState :=
  { sfS1 with fetches := 1,
              tasks := Function.update sfS1.tasks 0 (.fetched 0) }

/-- After task 0 stores the cell and releases the mutex. -/
def sfS3 : SFState :=
  { sfS2 with slot := some 0, lockHeld := none,
              tasks := Function.update sfS2.tasks 0 (.done 0) }

/-- C8 witness: a concrete three-step run reaching a state with a
completed caller, where the single-flight theorem yields exactly one
fetch. -/
theorem C8_single_flight_witness :
    sfS3.fetches ≤ 1 ∧ sfS3.fetches = 1 := by
  have hreach : SFReachable sfS3 :=
    Relation.ReflTransGen.tail
      (Relation.ReflTransGen.tail
        (Relation.ReflTransGen.tail Relation.ReflTransGen.refl
          (SFStep.acquire sfInit 0 rfl rfl))
        (SFStep.fetch sfS1 0 rfl rfl rfl))
      (SFStep.store sfS2 0 0 rfl rfl)
  have h := C8_single_flight sfS3 hreach
  exact ⟨h.1, h.2.2 ⟨0, 0, rfl⟩⟩

/-- C5 witness: the statement evaluated at a concrete state and oracle. -/
theorem C5_clear_on_connect_never_on_disconnect_witness :
    (clear_cache colorsCachedState).cache = ClientCache.empty ∧
    (clear_cache colorsCachedState).byteHeap 1 = List.replicate 100 0 := by
  have h := C5_clear_on_connect_never_on_disconnect colorsCachedState
    (.ok boardInfo0) 0 []
  exact ⟨h.1.1, by rw [congrFun h.1.2.1 1]; rfl⟩

/-- C7 witness: a concrete unparsable text frame takes the fallback, and a
concrete non-UTF-8 frame takes the panic. -/
theorem C7_unknown_text_frame_fallback_witness :
    dispatchFrame 0 (.ok boardInfo0) emptyState (.text "lorem ipsum") none
      = (.ok emptyState [.unknown "lorem ipsum"], []) ∧
    dispatchFrame 0 (.ok boardInfo0) emptyState (.nonUtf8 [255]) none
      = (.panicked emptyState "Websocket didn't send text", []) := by
  have h := C7_unknown_text_frame_fallback 0 (.ok boardInfo0) emptyState
    "lorem ipsum" []
  exact ⟨h.1, h.2.2 [255] none⟩

/-- C9 witness: a buffer handed out before invalidation (cell 1 of the
colors-cached state) still reads its contents after `clear_cache`, while
the slot itself is empty. -/
theorem C9_handles_survive_invalidation_witness :
    (clear_cache colorsCachedState).byteHeap 1 = List.replicate 100 0 ∧
    (clear_cache colorsCachedState).cache.colors = none := by
  have h := C9_handles_survive_invalidation colorsCachedState
  exact ⟨by rw [congrFun h.1 1]; rfl, h.2.2.2.2.2.1⟩

/-- C10 witness: a concrete failed Ready-phase fetch. -/
theorem C10_cleared_cache_on_ready_failure_witness :
    (connectOp colorsCachedState "http" (.ok ()) (.error (.Http "refused")) 0 []).result
      = .err (.InfoFailed (.Http "refused")) ∧
    (connectOp colorsCachedState "http" (.ok ()) (.error (.Http "refused")) 0 []).state.cache
      = ClientCache.empty := by
  have h := C10_cleared_cache_on_ready_failure colorsCachedState (.Http "refused") 0 []
  exact ⟨h.1, h.2.1⟩
